import Mathlib

/-!
Verification of the Rajya Sabha members API (src/main.py, src/config.py).

The repository is a read-only FastAPI service over a MySQL `members` table plus
sub-resource tables, gated by an `X-API-Key` check and a 100/minute rate limit.
We embed the request handlers shallowly: the database is a `List Member`, SQL
statements become pure list operations translated clause by clause from the
query strings in src/main.py, and the try/except control flow of each handler is
modelled explicitly so that connection acquire/release accounting is visible.

Parts of the repository imported by src/main.py are not present in src/
(`auth.py`, `database.py`, and the sub-resource handler file): definitions for
those carry a doc comment starting `Modelled from the spec:` and follow the
spec's wording.
-/

/-- One row of the `members` table. `srno` is the primary key (spec glossary);
the remaining columns used by the handlers of src/main.py are
`member_name`, `state_ut`, `party` and `status`. -/
structure Member where
  srno : Nat
  member_name : String
  state_ut : String
  party : String
  status : String
deriving Repr, DecidableEq, Inhabited

/-- `ORDER BY srno` (src/main.py line 102): the table sorted by the primary
key (a stable sort; SQL fixes only the key order). -/
def membersOrderedBySrno (db : List Member) : List Member :=
  db.insertionSort (fun a b => a.srno ≤ b.srno)

/-- `ORDER BY member_name` (src/main.py lines 226, 266, 306). -/
def membersOrderedByName (db : List Member) : List Member :=
  db.insertionSort (fun a b => a.member_name ≤ b.member_name)

/-- One unit of a MySQL `LIKE` pattern after escape processing: the `%`
wildcard, the `_` wildcard, or a literal character. -/
inductive LikeTok where
  | percent
  | underscore
  | lit (c : Char)
deriving Repr, DecidableEq

/-- Escape processing of a MySQL `LIKE` pattern under the server's default SQL
mode: a backslash in the pattern is consumed at match time and makes the
following character literal (so `\%` and `\_` lose their wildcard meaning and
`\x` is just `x`); a trailing lone backslash stands for a literal backslash;
unescaped `%` and `_` are the wildcards.  `esc` records whether the previous
character was an unconsumed backslash. -/
def likeToks (esc : Bool) : List Char → List LikeTok
  | [] => if esc then [LikeTok.lit '\\'] else []
  | p :: ps =>
    if esc then LikeTok.lit p :: likeToks false ps
    else if p = '\\' then likeToks true ps
    else if p = '%' then LikeTok.percent :: likeToks false ps
    else if p = '_' then LikeTok.underscore :: likeToks false ps
    else LikeTok.lit p :: likeToks false ps

/-- Matching a tokenized `LIKE` pattern against a subject, under the server's
default case-insensitive collation: `percent` matches any sequence of
characters (realized as: some suffix of the subject, reachable by dropping
`n ≤ length` characters, matches the rest of the pattern), `underscore`
matches exactly one character, and a literal matches one character
case-insensitively. -/
def likeMatchToks : List LikeTok → List Char → Bool
  | [], s => s.isEmpty
  | LikeTok.percent :: ts, s =>
    (List.range (s.length + 1)).any (fun n => likeMatchToks ts (s.drop n))
  | LikeTok.underscore :: ts, s =>
    match s with
    | [] => false
    | _ :: s' => likeMatchToks ts s'
  | LikeTok.lit c :: ts, s =>
    match s with
    | [] => false
    | d :: s' => (c.toLower == d.toLower) && likeMatchToks ts s'

/-- MySQL `LIKE` under the default SQL mode and default case-insensitive
collation: escape-process the pattern, then match the tokens.  Used by the
handlers that run `... LIKE %s` (src/main.py lines 187, 266); the bound
parameter value reaches the matcher verbatim (the connector's escaping
protects only the string-literal level, and the server strips those escapes
before the match). -/
def likeMatch (p s : List Char) : Bool :=
  likeMatchToks (likeToks false p) s

/-- The response envelope of `GET /members` (src/main.py lines 111-117). -/
structure MembersPage where
  total : Nat
  page : Nat
  limit : Nat
  total_pages : Nat
  data : List Member
deriving Repr, DecidableEq

/-- The pure part of `get_all_members` (src/main.py lines 93-117):
`SELECT COUNT(*)` is the length of the table, and
`SELECT * FROM members ORDER BY srno LIMIT %s OFFSET %s` is
`take limit` of `drop offset` of the table ordered by `srno`;
`total_pages` is `(total_count + limit - 1) // limit` (line 115). -/
def get_all_members (db : List Member) (page limit : Nat) : MembersPage :=
  let total_count := db.length
  let offset := (page - 1) * limit
  let rows := ((membersOrderedBySrno db).drop offset).take limit
  { total := total_count
    page := page
    limit := limit
    total_pages := (total_count + limit - 1) / limit
    data := rows }

/-- Envelope of `GET /members/name/{member_name}` (src/main.py lines 194-197). -/
structure NameSearchResult where
  count : Nat
  data : List Member
deriving Repr, DecidableEq

/-- Envelope of `GET /members/state/{state_ut}` (src/main.py lines 233-237). -/
structure StateSearchResult where
  state_ut : String
  count : Nat
  data : List Member
deriving Repr, DecidableEq

/-- Envelope of `GET /members/party/{party}` (src/main.py lines 273-277). -/
structure PartySearchResult where
  party : String
  count : Nat
  data : List Member
deriving Repr, DecidableEq

/-- Envelope of `GET /members/status/{status}` (src/main.py lines 313-317). -/
structure StatusSearchResult where
  status : String
  count : Nat
  data : List Member
deriving Repr, DecidableEq

/-- Pure part of `get_members_by_name` (src/main.py lines 184-197):
`SELECT * FROM members WHERE member_name LIKE %s` with the bound value
`f"%{member_name}%"`; `count` is `len(data)`. -/
def get_members_by_name_resp (db : List Member) (member_name : String) :
    NameSearchResult :=
  let data := db.filter
    (fun m => likeMatch ("%" ++ member_name ++ "%").toList m.member_name.toList)
  { count := data.length, data := data }

/-- Pure part of `get_members_by_state` (src/main.py lines 223-237):
`SELECT * FROM members WHERE state_ut = %s ORDER BY member_name`. -/
def get_members_by_state_resp (db : List Member) (state_ut : String) :
    StateSearchResult :=
  let data := membersOrderedByName (db.filter (fun m => m.state_ut == state_ut))
  { state_ut := state_ut, count := data.length, data := data }

/-- Pure part of `get_members_by_party` (src/main.py lines 263-277):
`SELECT * FROM members WHERE party LIKE %s ORDER BY member_name` with bound
value `f"%{party}%"`. -/
def get_members_by_party_resp (db : List Member) (party : String) :
    PartySearchResult :=
  let data := membersOrderedByName
    (db.filter (fun m => likeMatch ("%" ++ party ++ "%").toList m.party.toList))
  { party := party, count := data.length, data := data }

/-- Pure part of `get_members_by_status` (src/main.py lines 303-317):
`SELECT * FROM members WHERE status = %s ORDER BY member_name`. -/
def get_members_by_status_resp (db : List Member) (status : String) :
    StatusSearchResult :=
  let data := membersOrderedByName (db.filter (fun m => m.status == status))
  { status := status, count := data.length, data := data }

/-! ## Handler execution with connection accounting

Each protected handler of src/main.py follows the same shape: acquire a
connection (`get_database_connection`), raise HTTP 500 when it is `None`, then
run a `try` block that executes the queries, calls `close_connection(conn)` and
builds the response, with `except` clauses that call `close_connection(conn)`
before re-raising a database error as HTTP 500.  We model this control flow
explicitly: the environment says whether the connection and each query succeed,
and the trace counts connection acquisitions, `close_connection` calls and
executed queries. -/

/-- An HTTP error response (`HTTPException(status_code=..., detail=...)`). -/
structure HttpError where
  status : Nat
  detail : String
deriving Repr, DecidableEq

/-- A Python exception escaping a handler's `try` block: either a database
error (caught by `except Exception`) or an `HTTPException`
(re-raised unchanged by `except HTTPException: raise`). -/
inductive PyExc where
  | dbError (msg : String)
  | httpExc (e : HttpError)
deriving Repr, DecidableEq

/-- Interaction accounting for one request: successful
`get_database_connection()` calls, `close_connection(conn)` calls, and
`cursor.execute` calls. -/
structure DbTrace where
  acquires : Nat
  releases : Nat
  queries : Nat
deriving Repr, DecidableEq

/-- Environment a handler runs in: whether `get_database_connection()` yields a
connection, whether the `COUNT(*)` query succeeds, whether the data query
succeeds, and the contents of the `members` table. -/
structure DbEnv where
  connAvailable : Bool
  countQueryOk : Bool
  dataQueryOk : Bool
  db : List Member
deriving Repr, DecidableEq

/-- Outcome of a handler's `try` block: the Python result plus the number of
`close_connection` calls and `cursor.execute` calls made inside the block. -/
structure TryOut (α : Type) where
  result : Except PyExc α
  releases : Nat
  queries : Nat

/-- The `try` block of `get_all_members` (src/main.py lines 93-117): execute
the `COUNT(*)` query, execute the paginated data query, call
`close_connection(conn)`, and return the envelope; a failing query raises
before the close is reached. -/
def get_all_members_tryBlock (env : DbEnv) (page limit : Nat) :
    TryOut MembersPage :=
  if env.countQueryOk = false then
    { result := Except.error (PyExc.dbError "count query failed"), releases := 0, queries := 1 }
  else if env.dataQueryOk = false then
    { result := Except.error (PyExc.dbError "data query failed"), releases := 0, queries := 2 }
  else
    { result := Except.ok (get_all_members env.db page limit), releases := 1, queries := 2 }

/-- `get_all_members` (src/main.py lines 73-122): HTTP 500 when no connection
is available (lines 89-91), otherwise the `try` block; its only `except`
clause (lines 119-122) catches any exception, calls `close_connection(conn)`
and raises HTTP 500. -/
def get_all_members_run (env : DbEnv) (page limit : Nat) :
    Except HttpError MembersPage × DbTrace :=
  if env.connAvailable = false then
    (Except.error { status := 500, detail := "Database connection failed" },
      { acquires := 0, releases := 0, queries := 0 })
  else
    let t := get_all_members_tryBlock env page limit
    match t.result with
    | Except.ok v =>
        (Except.ok v, { acquires := 1, releases := t.releases, queries := t.queries })
    | Except.error (PyExc.httpExc _) =>
        (Except.error { status := 500, detail := "Error: HTTPException" },
          { acquires := 1, releases := t.releases + 1, queries := t.queries })
    | Except.error (PyExc.dbError m) =>
        (Except.error { status := 500, detail := "Error: " ++ m },
          { acquires := 1, releases := t.releases + 1, queries := t.queries })

/-- The `try` block of `get_member_by_srno` (src/main.py lines 143-156):
execute `SELECT * FROM members WHERE srno = %s`, `fetchone()` the first
matching row, call `close_connection(conn)`, then raise HTTP 404 when no row
was found (lines 153-154) — note the close happens before the 404 raise. -/
def get_member_by_srno_tryBlock (env : DbEnv) (srno : Nat) : TryOut Member :=
  if env.dataQueryOk = false then
    { result := Except.error (PyExc.dbError "query failed"), releases := 0, queries := 1 }
  else
    match (env.db.filter (fun m => m.srno == srno)).head? with
    | none =>
        { result := Except.error (PyExc.httpExc { status := 404, detail := "Member not found" })
          releases := 1, queries := 1 }
    | some m => { result := Except.ok m, releases := 1, queries := 1 }

/-- `get_member_by_srno` (src/main.py lines 126-163): HTTP 500 when no
connection is available (lines 140-141), otherwise the `try` block; `except
HTTPException: raise` (lines 158-159) re-raises without touching the
connection, and `except Exception` (lines 160-163) calls
`close_connection(conn)` and raises HTTP 500. -/
def get_member_by_srno_run (env : DbEnv) (srno : Nat) :
    Except HttpError Member × DbTrace :=
  if env.connAvailable = false then
    (Except.error { status := 500, detail := "Database connection failed" },
      { acquires := 0, releases := 0, queries := 0 })
  else
    let t := get_member_by_srno_tryBlock env srno
    match t.result with
    | Except.ok m =>
        (Except.ok m, { acquires := 1, releases := t.releases, queries := t.queries })
    | Except.error (PyExc.httpExc e) =>
        (Except.error e, { acquires := 1, releases := t.releases, queries := t.queries })
    | Except.error (PyExc.dbError m) =>
        (Except.error { status := 500, detail := "Error: " ++ m },
          { acquires := 1, releases := t.releases + 1, queries := t.queries })

/-- The four search handlers (`get_members_by_name`, `get_members_by_state`,
`get_members_by_party`, `get_members_by_status`, src/main.py lines 167-322)
share one control-flow shape: acquire (HTTP 500 when unavailable), `try`
{execute the one data query, `close_connection(conn)`, return the envelope},
`except Exception` {`close_connection(conn)`, raise HTTP 500}.  `resp` is the
already-computed pure response of the particular handler. -/
def search_handler_run {α : Type} (connAvailable dataQueryOk : Bool) (resp : α) :
    Except HttpError α × DbTrace :=
  if connAvailable = false then
    (Except.error { status := 500, detail := "Database connection failed" },
      { acquires := 0, releases := 0, queries := 0 })
  else if dataQueryOk = false then
    (Except.error { status := 500, detail := "Error: query failed" },
      { acquires := 1, releases := 0 + 1, queries := 1 })
  else
    (Except.ok resp, { acquires := 1, releases := 1, queries := 1 })

/-! ## Authentication -/

/-- Authentication failure: the `X-API-Key` header is absent, or present with
a value different from the configured secret. -/
inductive AuthError where
  | missing
  | invalid
deriving Repr, DecidableEq

/-- Modelled from the spec: `verify_api_key` lives in `auth.py` (imported at
src/main.py line 5), which is not under src/.  Spec §4.1: verification
succeeds iff the header is present and its value equals the configured secret
exactly (string equality, no normalization); it fails with `Missing` when the
header is absent and `Invalid` when it is present but mismatched. -/
def verify_api_key (header : Option String) (secret : String) :
    Except AuthError Unit :=
  match header with
  | none => Except.error AuthError.missing
  | some v => if v = secret then Except.ok () else Except.error AuthError.invalid

/-- Modelled from the spec: spec §4.1 maps both authentication failures to an
HTTP 401/403-class response; FastAPI's API-key security dependency rejects
with 403. -/
def authErrorStatus : AuthError → Nat
  | _ => 403

/-- `GET /members` including its `Depends(verify_api_key)` dependency
(src/main.py line 77): FastAPI resolves the dependency before the handler
body runs, so an authentication failure returns the error response without
entering `get_all_members` — no connection is acquired and no query runs. -/
def members_endpoint (secret : String) (header : Option String) (env : DbEnv)
    (page limit : Nat) : Except HttpError MembersPage × DbTrace :=
  match verify_api_key header secret with
  | Except.error e =>
      (Except.error { status := authErrorStatus e, detail := "Not authenticated" },
        { acquires := 0, releases := 0, queries := 0 })
  | Except.ok _ => get_all_members_run env page limit

/-- `GET /members/{srno}` including its `Depends(verify_api_key)` dependency
(src/main.py line 129). -/
def member_by_srno_endpoint (secret : String) (header : Option String)
    (env : DbEnv) (srno : Nat) : Except HttpError Member × DbTrace :=
  match verify_api_key header secret with
  | Except.error e =>
      (Except.error { status := authErrorStatus e, detail := "Not authenticated" },
        { acquires := 0, releases := 0, queries := 0 })
  | Except.ok _ => get_member_by_srno_run env srno

/-! ## SQL statements as data

For the injection-safety claim we record, for each handler, the SQL text it
passes to `cursor.execute` and the bound parameter values, exactly as they
appear in src/main.py.  The text is a string literal in the source; only the
parameter tuple carries request input. -/

/-- One `cursor.execute(text, params)` call: the SQL text and the bound
parameter values (stringified). -/
structure SqlQuery where
  text : String
  params : List String
deriving Repr, DecidableEq

/-- The two `cursor.execute` calls of `get_all_members`
(src/main.py lines 97 and 102-103). -/
def get_all_members_queries (page limit : Nat) : List SqlQuery :=
  [ { text := "SELECT COUNT(*) as total FROM members", params := [] },
    { text := "SELECT * FROM members ORDER BY srno LIMIT %s OFFSET %s"
      params := [toString limit, toString ((page - 1) * limit)] } ]

/-- The `cursor.execute` call of `get_member_by_srno`
(src/main.py lines 146-147). -/
def get_member_by_srno_queries (srno : Nat) : List SqlQuery :=
  [ { text := "SELECT * FROM members WHERE srno = %s", params := [toString srno] } ]

/-- The `cursor.execute` call of `get_members_by_name`
(src/main.py lines 187-188): the wildcard wrapping happens in the bound
value, not in the SQL text. -/
def get_members_by_name_queries (member_name : String) : List SqlQuery :=
  [ { text := "SELECT * FROM members WHERE member_name LIKE %s"
      params := ["%" ++ member_name ++ "%"] } ]

/-- The `cursor.execute` call of `get_members_by_state`
(src/main.py lines 226-227). -/
def get_members_by_state_queries (state_ut : String) : List SqlQuery :=
  [ { text := "SELECT * FROM members WHERE state_ut = %s ORDER BY member_name"
      params := [state_ut] } ]

/-- The `cursor.execute` call of `get_members_by_party`
(src/main.py lines 266-267). -/
def get_members_by_party_queries (party : String) : List SqlQuery :=
  [ { text := "SELECT * FROM members WHERE party LIKE %s ORDER BY member_name"
      params := ["%" ++ party ++ "%"] } ]

/-- The `cursor.execute` call of `get_members_by_status`
(src/main.py lines 306-307). -/
def get_members_by_status_queries (status : String) : List SqlQuery :=
  [ { text := "SELECT * FROM members WHERE status = %s ORDER BY member_name"
      params := [status] } ]

/-! ## Health check -/

/-- An opaque database connection handle for the health probe. -/
abbrev Conn := Nat

/-- The `/health` response body (src/main.py lines 66, 68). -/
structure HealthResponse where
  status : String
  database : String
deriving Repr, DecidableEq

/-- `health_check` (src/main.py lines 61-68).  `get_database_connection` /
`close_connection` live in `database.py`, which is not under src/; modelled
from the spec (§4.4, §6): acquisition yields an optional connection and never
raises, release returns it.  The argument is what acquisition returned; the
second component counts `close_connection` calls.  The handler is a total
function returning a plain value — it raises nothing in either case. -/
def health_check (conn : Option Conn) : HealthResponse × Nat :=
  match conn with
  | some _ => ({ status := "healthy", database := "connected" }, 1)
  | none => ({ status := "unhealthy", database := "disconnected" }, 0)

/-! ## Rate limiter -/

/-- Per-client rate-limit window state: window start timestamp and the number
of requests counted in the current window (spec §3). -/
structure LimiterState where
  windowStart : Nat
  count : Nat
deriving Repr, DecidableEq

/-- Modelled from the spec: the `Limiter` configured at src/main.py line 20 and
attached to every protected endpoint as `@limiter.limit("100/minute")` is the
slowapi library, not code under src/.  Spec §3 describes its state as a
per-client counter plus window start timestamp, reset when the window elapses,
and §4.2 fixes the policy at 100 requests/minute.  One step: if the 60-second
window has elapsed, start a new window containing this request (admitted);
otherwise admit while the counter is below 100 and reject with 429 once it
reaches 100. -/
def limiterStep (st : LimiterState) (t : Nat) : LimiterState × Bool :=
  if st.windowStart + 60 ≤ t then ({ windowStart := t, count := 1 }, true)
  else if st.count < 100 then ({ windowStart := st.windowStart, count := st.count + 1 }, true)
  else (st, false)

/-- Run the limiter over a client's request timestamps, starting from the
given state (`none` before the client's first request); `true` means the
request is admitted, `false` means it is rejected with HTTP 429. -/
def limiterGo : Option LimiterState → List Nat → List Bool
  | _, [] => []
  | none, t :: ts => true :: limiterGo (some { windowStart := t, count := 1 }) ts
  | some st, t :: ts =>
    let step := limiterStep st t
    step.2 :: limiterGo (some step.1) ts

/-- The admission decisions for a fresh client identity sending requests at
the given timestamps. -/
def runLimiter (ts : List Nat) : List Bool :=
  limiterGo none ts

/-! ## Sub-resource endpoints -/

/-- One row of a sub-resource table (attendance, bills, committees, ...):
foreign-keyed to a member's `srno`, with resource-specific columns. -/
structure SubRow where
  srno : Nat
  fields : List (String × String)
deriving Repr, DecidableEq

/-- The `{count, rows}` envelope of the generic sub-resource handlers. -/
structure CountRows where
  count : Nat
  rows : List SubRow
deriving Repr, DecidableEq

/-- Modelled from the spec: the per-table sub-resource handlers are part of
this repository's handler surface (spec §2 "repetitive per-table handler
boilerplate") but the file defining them is not under src/.  Spec §6 lists the
thirteen sub-resources exposed as authenticated `GET /{resource}` endpoints. -/
def subResourceNames : List String :=
  [ "assurance", "education-levels", "gallery", "member-attendance",
    "member-bills", "member-committees", "member-dashboard", "member-debates",
    "member-other-details", "member-personal-details", "member-questions",
    "member-special-mentions", "mp-tour" ]

/-- Modelled from the spec: the generic fetch behind every sub-resource
endpoint (spec §4.3): with an `srno` query parameter, exact-match rows; without
it, the full table; in both cases a `{count, rows}` envelope. -/
def generic_fetch (table : List SubRow) : Option Nat → CountRows
  | some s =>
    let rows := table.filter (fun r => r.srno == s)
    { count := rows.length, rows := rows }
  | none => { count := table.length, rows := table }

/-- Modelled from the spec: routing for the sub-resource endpoints — each
name in the fixed list is served by `generic_fetch` over that resource's
table; anything else is not an endpoint. -/
def sub_resource_endpoint (tables : String → List SubRow) (resource : String)
    (srno : Option Nat) : Option CountRows :=
  if resource ∈ subResourceNames then some (generic_fetch (tables resource) srno)
  else none

/-! ## Theorems -/

/-- C10: in every successful response from the name, state, party, and status
search endpoints, the `count` field equals the length of the `data` array, and
the state, party, and status envelopes echo the caller's filter value
(`state_ut`, `party`, `status`) back unchanged. -/
theorem search_envelope_count_and_echo (db : List Member) (q st pa su : String) :
    (get_members_by_name_resp db q).count = (get_members_by_name_resp db q).data.length ∧
    (get_members_by_state_resp db st).state_ut = st ∧
    (get_members_by_state_resp db st).count = (get_members_by_state_resp db st).data.length ∧
    (get_members_by_party_resp db pa).party = pa ∧
    (get_members_by_party_resp db pa).count = (get_members_by_party_resp db pa).data.length ∧
    (get_members_by_status_resp db su).status = su ∧
    (get_members_by_status_resp db su).count = (get_members_by_status_resp db su).data.length :=
  ⟨rfl, rfl, rfl, rfl, rfl, rfl, rfl⟩

/-- C5: the SQL text each handler passes to `cursor.execute` is the fixed
string literal from the source, independent of every request input — for any
two requests the executed texts are identical, and caller-supplied values
appear only in the bound-parameter lists. -/
theorem sql_text_fixed (page limit srno : Nat) (member_name state_ut pa su : String) :
    (get_all_members_queries page limit).map SqlQuery.text =
      ["SELECT COUNT(*) as total FROM members",
       "SELECT * FROM members ORDER BY srno LIMIT %s OFFSET %s"] ∧
    (get_member_by_srno_queries srno).map SqlQuery.text =
      ["SELECT * FROM members WHERE srno = %s"] ∧
    (get_members_by_name_queries member_name).map SqlQuery.text =
      ["SELECT * FROM members WHERE member_name LIKE %s"] ∧
    (get_members_by_state_queries state_ut).map SqlQuery.text =
      ["SELECT * FROM members WHERE state_ut = %s ORDER BY member_name"] ∧
    (get_members_by_party_queries pa).map SqlQuery.text =
      ["SELECT * FROM members WHERE party LIKE %s ORDER BY member_name"] ∧
    (get_members_by_status_queries su).map SqlQuery.text =
      ["SELECT * FROM members WHERE status = %s ORDER BY member_name"] ∧
    (get_members_by_name_queries member_name).flatMap SqlQuery.params =
      ["%" ++ member_name ++ "%"] ∧
    (get_member_by_srno_queries srno).flatMap SqlQuery.params = [toString srno] :=
  ⟨rfl, rfl, rfl, rfl, rfl, rfl, rfl, rfl⟩

/-- C8: `GET /health` answers `{status: healthy, database: connected}` when a
connection can be acquired (releasing the probe connection exactly once before
returning) and `{status: unhealthy, database: disconnected}` when it cannot;
in both cases it returns a plain value — no exception escapes. -/
theorem health_check_contract (c : Conn) :
    health_check (some c) = ({ status := "healthy", database := "connected" }, 1) ∧
    health_check none = ({ status := "unhealthy", database := "disconnected" }, 0) :=
  ⟨rfl, rfl⟩

/-- C9: each of the thirteen sub-resources is served by an authenticated
`GET /{resource}` endpoint taking an optional `srno` query parameter: with
`srno` it returns the exact-match rows, without it the full table, always as a
`{count, rows}` envelope with `count` the number of rows. -/
theorem sub_resource_contract (tables : String → List SubRow) (srno : Option Nat)
    (r : String) (hr : r ∈ subResourceNames) :
    ∃ env, sub_resource_endpoint tables r srno = some env ∧
      env.rows = (match srno with
                  | some s => (tables r).filter (fun row => row.srno == s)
                  | none => tables r) ∧
      env.count = env.rows.length := by
  refine ⟨generic_fetch (tables r) srno, ?_, ?_, ?_⟩
  · simp [sub_resource_endpoint, hr]
  · cases srno <;> rfl
  · cases srno <;> rfl

/-- Witness for C9: the `gallery` endpoint with `srno = 2` over a two-row
table returns exactly the matching row. -/
theorem sub_resource_contract_witness :
    ∃ env, sub_resource_endpoint
        (fun _ => [{ srno := 2, fields := [] }, { srno := 3, fields := [] }])
        "gallery" (some 2) = some env ∧
      env.rows = ((fun (_ : String) => [({ srno := 2, fields := [] } : SubRow),
        { srno := 3, fields := [] }]) "gallery").filter (fun row => row.srno == 2) ∧
      env.count = env.rows.length := by
  have h := sub_resource_contract
    (fun _ => [{ srno := 2, fields := [] }, { srno := 3, fields := [] }])
    (some 2) "gallery" (by decide)
  exact h

/-- C4: on every exit path of every handler that acquires a connection, the
connection is released exactly as many times as it was acquired: once when
acquisition succeeded (success path, query-failure path, and 404 path alike),
zero times when no connection was handed out; no path leaks or
double-releases.  The third conjunct covers the shared shape of the four
search handlers, for any response value. -/
theorem connection_release_balanced (env : DbEnv) (page limit srno : Nat) :
    ((get_all_members_run env page limit).2.releases =
       (get_all_members_run env page limit).2.acquires ∧
     (get_all_members_run env page limit).2.acquires =
       (if env.connAvailable then 1 else 0)) ∧
    ((get_member_by_srno_run env srno).2.releases =
       (get_member_by_srno_run env srno).2.acquires ∧
     (get_member_by_srno_run env srno).2.acquires =
       (if env.connAvailable then 1 else 0)) ∧
    (∀ (α : Type) (resp : α),
      (search_handler_run env.connAvailable env.dataQueryOk resp).2.releases =
        (search_handler_run env.connAvailable env.dataQueryOk resp).2.acquires ∧
      (search_handler_run env.connAvailable env.dataQueryOk resp).2.acquires =
        (if env.connAvailable then 1 else 0)) := by
  obtain ⟨ca, co, da, rows⟩ := env
  refine ⟨?_, ?_, ?_⟩
  · cases ca <;> cases co <;> cases da <;>
      simp [get_all_members_run, get_all_members_tryBlock]
  · cases h : List.find? (fun m => m.srno == srno) rows <;> cases ca <;> cases da <;>
      simp [get_member_by_srno_run, get_member_by_srno_tryBlock, h]
  · intro α resp
    cases ca <;> cases da <;> simp [search_handler_run]

/-- C3: an authenticated `GET /members/{srno}` request against a reachable
database returns HTTP 404 when no member row has the given `srno`, and returns
exactly the matching row when the exact-match primary-key lookup yields one. -/
theorem member_by_srno_lookup (env : DbEnv) (srno : Nat)
    (hconn : env.connAvailable = true) (hq : env.dataQueryOk = true) :
    ((∀ m ∈ env.db, m.srno ≠ srno) →
      (get_member_by_srno_run env srno).1 =
        Except.error { status := 404, detail := "Member not found" }) ∧
    (∀ m : Member, env.db.filter (fun x => x.srno == srno) = [m] →
      (get_member_by_srno_run env srno).1 = Except.ok m) := by
  constructor
  · intro hnone
    have hfil : env.db.filter (fun x => x.srno == srno) = [] := by
      rw [List.filter_eq_nil_iff]
      intro m hm
      simpa using hnone m hm
    simp [get_member_by_srno_run, get_member_by_srno_tryBlock, hconn, hq, hfil]
  · intro m hm
    simp [get_member_by_srno_run, get_member_by_srno_tryBlock, hconn, hq, hm]

/-- Witness for C3: over a one-row table, looking up a missing `srno` gives
404 and looking up the present `srno` gives that row. -/
theorem member_by_srno_lookup_witness :
    (get_member_by_srno_run ⟨true, true, true, [⟨7, "A", "S", "P", "Active"⟩]⟩ 9).1 =
      Except.error { status := 404, detail := "Member not found" } ∧
    (get_member_by_srno_run ⟨true, true, true, [⟨7, "A", "S", "P", "Active"⟩]⟩ 7).1 =
      Except.ok ⟨7, "A", "S", "P", "Active"⟩ :=
  ⟨(member_by_srno_lookup ⟨true, true, true, [⟨7, "A", "S", "P", "Active"⟩]⟩ 9
      rfl rfl).1 (by decide),
   (member_by_srno_lookup ⟨true, true, true, [⟨7, "A", "S", "P", "Active"⟩]⟩ 7
      rfl rfl).2 ⟨7, "A", "S", "P", "Active"⟩ (by decide)⟩

/-- C1: a request to a protected endpoint whose `X-API-Key` header is absent
or differs from the configured secret is answered with a 401/403-class error,
and the handler body performs no database access: no connection is acquired
and no query is executed. -/
theorem auth_failure_no_db_access (secret : String) (header : Option String)
    (env : DbEnv) (page limit srno : Nat) (hauth : header ≠ some secret) :
    (∃ e, (members_endpoint secret header env page limit).1 = Except.error e ∧
      (e.status = 401 ∨ e.status = 403)) ∧
    (members_endpoint secret header env page limit).2 = ⟨0, 0, 0⟩ ∧
    (∃ e, (member_by_srno_endpoint secret header env srno).1 = Except.error e ∧
      (e.status = 401 ∨ e.status = 403)) ∧
    (member_by_srno_endpoint secret header env srno).2 = ⟨0, 0, 0⟩ := by
  cases header with
  | none =>
    exact ⟨⟨⟨403, "Not authenticated"⟩, rfl, Or.inr rfl⟩, rfl,
      ⟨⟨403, "Not authenticated"⟩, rfl, Or.inr rfl⟩, rfl⟩
  | some v =>
    have hv : v ≠ secret := fun h => hauth (congrArg some h)
    refine ⟨⟨⟨403, "Not authenticated"⟩, ?_, Or.inr rfl⟩, ?_,
      ⟨⟨403, "Not authenticated"⟩, ?_, Or.inr rfl⟩, ?_⟩ <;>
      simp [members_endpoint, member_by_srno_endpoint, verify_api_key,
        authErrorStatus, hv]

/-- Witness for C1: with the configured secret "321" and a request carrying
no `X-API-Key` header, both protected endpoints reject without any database
interaction. -/
theorem auth_failure_no_db_access_witness :
    (∃ e, (members_endpoint "321" none ⟨true, true, true, []⟩ 1 50).1 =
        Except.error e ∧ (e.status = 401 ∨ e.status = 403)) ∧
    (members_endpoint "321" none ⟨true, true, true, []⟩ 1 50).2 = ⟨0, 0, 0⟩ ∧
    (∃ e, (member_by_srno_endpoint "321" none ⟨true, true, true, []⟩ 1).1 =
        Except.error e ∧ (e.status = 401 ∨ e.status = 403)) ∧
    (member_by_srno_endpoint "321" none ⟨true, true, true, []⟩ 1).2 = ⟨0, 0, 0⟩ :=
  auth_failure_no_db_access "321" none ⟨true, true, true, []⟩ 1 50 1 (by simp)

/-- C2: an authenticated `GET /members` with `page ≥ 1` and `1 ≤ limit ≤ 500`
returns an envelope echoing the requested `page` and `limit`, with
`total_pages` the ceiling of `total_count / limit`, and a `data` array of at
most `limit` rows, ordered by the primary key `srno`, whose `i`-th entry is
entry `(page - 1) * limit + i` of the full `srno`-ordered table. -/
theorem members_pagination_contract (db : List Member) (page limit : Nat)
    (_hp : 1 ≤ page) (_hl1 : 1 ≤ limit) (_hl2 : limit ≤ 500) :
    (get_all_members db page limit).page = page ∧
    (get_all_members db page limit).limit = limit ∧
    (get_all_members db page limit).total = db.length ∧
    (get_all_members db page limit).total_pages = db.length ⌈/⌉ limit ∧
    (get_all_members db page limit).data.length ≤ limit ∧
    List.Pairwise (fun a b => a.srno ≤ b.srno) (get_all_members db page limit).data ∧
    (∀ i, i < (get_all_members db page limit).data.length →
      (get_all_members db page limit).data[i]? =
        (membersOrderedBySrno db)[(page - 1) * limit + i]?) := by
  refine ⟨rfl, rfl, rfl, ?_, ?_, ?_, ?_⟩
  · rw [Nat.ceilDiv_eq_add_pred_div]; rfl
  · exact List.length_take_le _ _
  · have hs : List.Pairwise (fun a b => a.srno ≤ b.srno) (membersOrderedBySrno db) := by
      haveI : IsTotal Member (fun a b => a.srno ≤ b.srno) := ⟨fun a b => Nat.le_total _ _⟩
      haveI : IsTrans Member (fun a b => a.srno ≤ b.srno) := ⟨fun a b c => Nat.le_trans⟩
      exact List.sorted_insertionSort _ db
    exact hs.sublist ((List.take_sublist _ _).trans (List.drop_sublist _ _))
  · intro i hi
    have hilim : i < limit := lt_of_lt_of_le hi (List.length_take_le _ _)
    show (((membersOrderedBySrno db).drop ((page - 1) * limit)).take limit)[i]? = _
    rw [List.getElem?_take_of_lt hilim, List.getElem?_drop]

/-- Witness for C2: page 2 with limit 2 over a five-row table. -/
theorem members_pagination_contract_witness :
    (1 ≤ 2 ∧ 1 ≤ 2 ∧ 2 ≤ 500) ∧
    ((get_all_members
        [⟨4, "d", "", "", ""⟩, ⟨2, "b", "", "", ""⟩, ⟨5, "e", "", "", ""⟩,
         ⟨1, "a", "", "", ""⟩, ⟨3, "c", "", "", ""⟩] 2 2).page = 2 ∧
     (get_all_members
        [⟨4, "d", "", "", ""⟩, ⟨2, "b", "", "", ""⟩, ⟨5, "e", "", "", ""⟩,
         ⟨1, "a", "", "", ""⟩, ⟨3, "c", "", "", ""⟩] 2 2).total_pages = 3 ∧
     (get_all_members
        [⟨4, "d", "", "", ""⟩, ⟨2, "b", "", "", ""⟩, ⟨5, "e", "", "", ""⟩,
         ⟨1, "a", "", "", ""⟩, ⟨3, "c", "", "", ""⟩] 2 2).data =
       [⟨3, "c", "", "", ""⟩, ⟨4, "d", "", "", ""⟩]) := by
  refine ⟨by decide, ?_, ?_, by decide⟩
  · exact (members_pagination_contract
      [⟨4, "d", "", "", ""⟩, ⟨2, "b", "", "", ""⟩, ⟨5, "e", "", "", ""⟩,
       ⟨1, "a", "", "", ""⟩, ⟨3, "c", "", "", ""⟩] 2 2
      (by decide) (by decide) (by decide)).1
  · have h := (members_pagination_contract
      [⟨4, "d", "", "", ""⟩, ⟨2, "b", "", "", ""⟩, ⟨5, "e", "", "", ""⟩,
       ⟨1, "a", "", "", ""⟩, ⟨3, "c", "", "", ""⟩] 2 2
      (by decide) (by decide) (by decide)).2.2.2.1
    rw [h]; decide

/-- While the window that started at `t0` has not elapsed, the limiter keeps
`windowStart = t0`: starting from a count of `n`, the next requests are
admitted exactly while the counter stays below 100, i.e. the `i`-th of them is
admitted iff `i < 100 - n`. -/
theorem limiterGo_window (t0 : Nat) :
    ∀ (ts : List Nat) (n : Nat), n ≤ 100 → (∀ t ∈ ts, t < t0 + 60) →
    limiterGo (some ⟨t0, n⟩) ts =
      (List.range ts.length).map (fun i => decide (i < 100 - n)) := by
  intro ts
  induction ts with
  | nil => intro n _ _; rfl
  | cons t ts ih =>
    intro n hn hw
    have ht : ¬ (t0 + 60 ≤ t) := by
      have := hw t (List.mem_cons_self t ts)
      omega
    have hw' : ∀ u ∈ ts, u < t0 + 60 := fun u hu => hw u (List.mem_cons_of_mem t hu)
    by_cases hlt : n < 100
    · have := ih (n + 1) (by omega) hw'
      simp only [limiterGo, limiterStep, if_neg ht, if_pos hlt, this,
        List.length_cons, List.range_succ_eq_map, List.map_cons, List.map_map]
      rw [List.cons_eq_cons]
      constructor
      · rw [eq_comm, decide_eq_true_iff]; omega
      · apply List.map_congr_left
        intro i _
        simp only [Function.comp]
        rw [decide_eq_decide]
        omega
    · have hn100 : n = 100 := by omega
      subst hn100
      have := ih 100 le_rfl hw'
      simp only [limiterGo, limiterStep, if_neg ht, if_neg hlt, this,
        List.length_cons, List.range_succ_eq_map, List.map_cons, List.map_map]
      rw [List.cons_eq_cons]
      constructor
      · rw [eq_comm, decide_eq_false_iff_not]; omega
      · apply List.map_congr_left
        intro i _
        simp only [Function.comp]
        rw [decide_eq_decide]
        omega

/-- Counting how many of `0, ..., k-1` are below `m`. -/
theorem countP_range_lt (m : Nat) :
    ∀ k, List.countP (fun i => decide (i < m)) (List.range k) = min m k := by
  intro k
  induction k with
  | zero => simp
  | succ k ih =>
    rw [List.range_succ, List.countP_append, ih]
    by_cases h : k < m
    · simp [List.countP_cons, h]; omega
    · simp [List.countP_cons, h]; omega

/-- C7: for any client whose requests all fall within 60 seconds of its first
request, at most 100 of them are admitted — and when exactly 101 arrive in
that window, the 101st is rejected with HTTP 429. -/
theorem rate_limit_contract (t0 : Nat) (ts : List Nat)
    (hw : ∀ t ∈ ts, t < t0 + 60) :
    (runLimiter (t0 :: ts)).count true ≤ 100 ∧
    (ts.length = 100 → (runLimiter (t0 :: ts))[100]? = some false) := by
  have key : runLimiter (t0 :: ts) =
      true :: (List.range ts.length).map (fun i => decide (i < 99)) := by
    show limiterGo none (t0 :: ts) = _
    rw [limiterGo, limiterGo_window t0 ts 1 (by omega) hw]
  constructor
  · rw [key]
    have h1 : (true :: (List.range ts.length).map (fun i => decide (i < 99))).count true =
        ((List.range ts.length).map (fun i => decide (i < 99))).count true + 1 := by
      simp [List.count_cons]
    rw [h1]
    have h2 : ((List.range ts.length).map (fun i => decide (i < 99))).count true =
        List.countP (fun i => decide (i < 99)) (List.range ts.length) := by
      rw [List.count_eq_countP, List.countP_map]
      apply List.countP_congr
      intro i _
      simp
    rw [h2, countP_range_lt]
    omega
  · intro h
    rw [key, h]
    decide

/-- Witness for C7: 101 requests all at time 0 — at most 100 admitted, and
the 101st answer is a rejection. -/
theorem rate_limit_contract_witness :
    (∀ t ∈ List.replicate 100 0, t < 0 + 60) ∧
    ((runLimiter (0 :: List.replicate 100 0)).count true ≤ 100 ∧
     ((List.replicate 100 0 : List Nat).length = 100 →
       (runLimiter (0 :: List.replicate 100 0))[100]? = some false)) :=
  ⟨by decide, rate_limit_contract 0 (List.replicate 100 0) (by decide)⟩

/-- A query free of `LIKE` wildcards and of the escape character tokenizes,
followed by a closing `%`, to its characters as literals plus `percent`. -/
theorem likeToks_plain_percent (q : List Char)
    (hq : ∀ c ∈ q, c ≠ '%' ∧ c ≠ '_' ∧ c ≠ '\\') :
    likeToks false (q ++ ['%']) = q.map LikeTok.lit ++ [LikeTok.percent] := by
  induction q with
  | nil => rfl
  | cons a q' ih =>
    obtain ⟨ha1, ha2, ha3⟩ := hq a (List.mem_cons_self a q')
    have hq' := fun c hc => hq c (List.mem_cons_of_mem a hc)
    simp only [List.cons_append, likeToks, if_neg ha3, if_neg ha1, if_neg ha2,
      if_neg Bool.false_ne_true, List.map_cons, List.append_eq, ih hq']

/-- The full executed pattern `%q%` tokenizes to `percent`, the literal query
characters, and `percent` — when `q` is wildcard- and escape-free. -/
theorem likeToks_full_pattern (q : List Char)
    (hq : ∀ c ∈ q, c ≠ '%' ∧ c ≠ '_' ∧ c ≠ '\\') :
    likeToks false ('%' :: (q ++ ['%'])) =
      LikeTok.percent :: (q.map LikeTok.lit ++ [LikeTok.percent]) := by
  simp [likeToks, likeToks_plain_percent q hq]

/-- Unfolding the `%` wildcard: `percent :: ts` matches `s` iff `ts` matches
some suffix of `s`. -/
theorem likeMatchToks_percent (ts : List LikeTok) (s : List Char) :
    likeMatchToks (LikeTok.percent :: ts) s = true ↔
      ∃ n, likeMatchToks ts (s.drop n) = true := by
  show (List.range (s.length + 1)).any (fun n => likeMatchToks ts (s.drop n)) = true ↔ _
  rw [List.any_eq_true]
  constructor
  · rintro ⟨n, _, hn⟩
    exact ⟨n, hn⟩
  · rintro ⟨n, hn⟩
    by_cases h : n < s.length + 1
    · exact ⟨n, List.mem_range.mpr h, hn⟩
    · refine ⟨s.length, List.mem_range.mpr (by omega), ?_⟩
      rw [List.drop_eq_nil_of_le (le_refl _)]
      rwa [List.drop_eq_nil_of_le (by omega)] at hn

/-- The bare `%` pattern matches every subject. -/
theorem likeMatchToks_percent_always (s : List Char) :
    likeMatchToks [LikeTok.percent] s = true := by
  rw [likeMatchToks_percent]
  exact ⟨s.length, by rw [List.drop_eq_nil_of_le (le_refl _)]; rfl⟩

/-- A run of literal tokens followed by `%` matches `s` iff the lowered
literals are a prefix of the lowered subject. -/
theorem likeMatchToks_plain_percent (q : List Char) (s : List Char) :
    (likeMatchToks (q.map LikeTok.lit ++ [LikeTok.percent]) s = true ↔
      q.map Char.toLower <+: s.map Char.toLower) := by
  induction q generalizing s with
  | nil => simpa using likeMatchToks_percent_always s
  | cons a q' ih =>
    cases s with
    | nil =>
      show (false : Bool) = true ↔ _
      simp
    | cons c s' =>
      show ((a.toLower == c.toLower) &&
        likeMatchToks (q'.map LikeTok.lit ++ [LikeTok.percent]) s') = true ↔ _
      simp only [List.map_cons, List.cons_prefix_cons, Bool.and_eq_true, beq_iff_eq]
      exact and_congr Iff.rfl (ih s')

/-- For a query `q` free of `LIKE` wildcards and escapes, the executed pattern
`%q%` matches a name iff the lowered query is an infix (contiguous substring)
of the lowered name — i.e. exactly case-insensitive substring search. -/
theorem likeMatch_substring (q : List Char)
    (hq : ∀ c ∈ q, c ≠ '%' ∧ c ≠ '_' ∧ c ≠ '\\') (s : List Char) :
    (likeMatch ('%' :: (q ++ ['%'])) s = true ↔
      q.map Char.toLower <:+: s.map Char.toLower) := by
  show likeMatchToks (likeToks false ('%' :: (q ++ ['%']))) s = true ↔ _
  rw [likeToks_full_pattern q hq, likeMatchToks_percent]
  constructor
  · rintro ⟨n, hn⟩
    have hpre := (likeMatchToks_plain_percent q (s.drop n)).mp hn
    rw [List.map_drop] at hpre
    exact List.infix_iff_prefix_suffix.mpr
      ⟨(s.map Char.toLower).drop n, hpre, List.drop_suffix n _⟩
  · intro h
    obtain ⟨t, hpre, hsuf⟩ := List.infix_iff_prefix_suffix.mp h
    obtain ⟨n, hdrop⟩ : ∃ n, t = (s.map Char.toLower).drop n :=
      ⟨(s.map Char.toLower).length - t.length, List.suffix_iff_eq_drop.mp hsuf⟩
    refine ⟨n, (likeMatchToks_plain_percent q (s.drop n)).mpr ?_⟩
    rw [List.map_drop, ← hdrop]
    exact hpre

/-- C6 counterexample: the claim "the result set contains exactly the members
whose name contains `q` as a substring (case-insensitively)" is false as
stated: with query `a_c`, the handler's `LIKE '%a_c%'` matches the member
named "abc" (`_` is a single-character wildcard) although "a_c" is not a
substring of "abc" under any case folding. -/
theorem name_search_substring_counterexample :
    (get_members_by_name_resp [⟨1, "abc", "S", "P", "Active"⟩] "a_c").data =
      [⟨1, "abc", "S", "P", "Active"⟩] ∧
    ¬ ("a_c".toList.map Char.toLower <:+: "abc".toList.map Char.toLower) := by
  constructor
  · decide
  · decide

/-- C6 (amended): for every query `q` containing no SQL `LIKE` metacharacter
(the wildcards `%` and `_` and the escape character `\`), the authenticated
name search returns exactly the members whose name contains `q` as a
case-insensitive substring, as a count plus all matching rows with no
pagination. -/
theorem name_search_ci_substring (db : List Member) (q : String)
    (hq : ∀ c ∈ q.toList, c ≠ '%' ∧ c ≠ '_' ∧ c ≠ '\\') :
    (get_members_by_name_resp db q).count =
      (get_members_by_name_resp db q).data.length ∧
    (get_members_by_name_resp db q).data = db.filter (fun m =>
      decide (q.toList.map Char.toLower <:+: m.member_name.toList.map Char.toLower)) := by
  refine ⟨rfl, ?_⟩
  show db.filter
      (fun m => likeMatch ("%" ++ q ++ "%").toList m.member_name.toList) = _
  apply List.filter_congr
  intro m _
  have hpat : ("%" ++ q ++ "%").toList = '%' :: (q.toList ++ ['%']) := by
    simp [String.toList, String.data_append]
  rw [hpat]
  by_cases hp : q.toList.map Char.toLower <:+: m.member_name.toList.map Char.toLower
  · rw [(likeMatch_substring q.toList hq m.member_name.toList).mpr hp,
      decide_eq_true hp]
  · rw [decide_eq_false hp]
    rw [Bool.eq_false_iff]
    intro hc
    exact hp ((likeMatch_substring q.toList hq m.member_name.toList).mp hc)

/-- Witness for C6 (amended): the spec's own example — query "kumar" returns
both "Anil Kumar" and "KUMAR Singh" and nothing else. -/
theorem name_search_ci_substring_witness :
    (get_members_by_name_resp
        [⟨1, "Anil Kumar", "", "", ""⟩, ⟨2, "KUMAR Singh", "", "", ""⟩,
         ⟨3, "Someone Else", "", "", ""⟩] "kumar").count =
      (get_members_by_name_resp
        [⟨1, "Anil Kumar", "", "", ""⟩, ⟨2, "KUMAR Singh", "", "", ""⟩,
         ⟨3, "Someone Else", "", "", ""⟩] "kumar").data.length ∧
    (get_members_by_name_resp
        [⟨1, "Anil Kumar", "", "", ""⟩, ⟨2, "KUMAR Singh", "", "", ""⟩,
         ⟨3, "Someone Else", "", "", ""⟩] "kumar").data =
      List.filter (fun m =>
          decide ("kumar".toList.map Char.toLower <:+:
            m.member_name.toList.map Char.toLower))
        [⟨1, "Anil Kumar", "", "", ""⟩, ⟨2, "KUMAR Singh", "", "", ""⟩,
         ⟨3, "Someone Else", "", "", ""⟩] :=
  name_search_ci_substring
    [⟨1, "Anil Kumar", "", "", ""⟩, ⟨2, "KUMAR Singh", "", "", ""⟩,
     ⟨3, "Someone Else", "", "", ""⟩] "kumar" (by decide)
